import Mathlib

/-!
Shallow embedding of the reference/dereference lint pass in
`src/clippy_lints/src/dereference.rs`.

The pass is driven by an external HIR traversal; every type- or
snippet-query it makes against the compiler is represented here as an
attribute carried by the visited node (`ExprAttrs`, `PatAttrs`,
`UsageInfo`).  The pass's own decision logic — the RefOp classifier, the
chain state machine of `check_expr`, the required-reference counting, the
stability oracle leaves `is_param_auto_deref_stable` and
`is_binding_ty_auto_deref_stable`, `report`, and the ref-pattern tracker
(`check_pat` / `check_local_usage` / `check_body_post`) — is translated
function by function from the source.
-/

/-- `rustc_middle::ty::Mutability` (`Not` / `Mut`). -/
inductive Mutability where
  | not
  | mut'
deriving DecidableEq

/-- Source span data consumed by the pass: whether the span comes from a
macro expansion, its syntax context, and an identifying number. -/
structure Span where
  fromExpansion : Bool
  ctxt : Nat
  id : Nat
deriving DecidableEq

/-- `rustc_middle::ty::adjustment::AutoBorrowMutability` (`Mut { .. }` / `Not`). -/
inductive AutoBorrowMutabilityM where
  | mutBorrow
  | notBorrow
deriving DecidableEq

/-- `rustc_middle::ty::adjustment::AutoBorrow` (`Ref` / `RawPtr`). -/
inductive AutoBorrowM where
  | refBorrow (m : AutoBorrowMutabilityM)
  | rawPtrBorrow
deriving DecidableEq

/-- The kind of a `rustc_middle::ty::adjustment::Adjustment`, reduced to
the distinctions `check_expr` makes: `Adjust::Deref(_)`,
`Adjust::Borrow(_)`, and everything else. -/
inductive AdjustKind where
  | derefAdj
  | borrowAdj (b : AutoBorrowM)
  | otherAdj
deriving DecidableEq

/-- One implicit coercion recorded on an expression; `targetIsRef` is
`adjust.target.is_ref()`. -/
structure Adjustment where
  kind : AdjustKind
  targetIsRef : Bool
deriving DecidableEq

/-- `rustc_middle::ty::TyKind`, reduced to the constructors that
`is_param_auto_deref_stable` (dereference.rs lines 868-903),
`deref_method_same_type` and the pattern-type check distinguish.
`adt` carries the results of the two queries the source makes on an ADT:
`ty.has_placeholders()` and `ty.has_param_types_or_consts()`. -/
inductive MirTy where
  | bool
  | char
  | int
  | uint
  | float
  | foreign
  | str
  | array
  | slice
  | rawPtr
  | fnDef
  | fnPtr
  | closure
  | generator
  | generatorWitness
  | never
  | tuple
  | projection
  | ref (m : Mutability) (t : MirTy)
  | infer
  | error
  | param
  | bound
  | opaqueTy
  | placeholder
  | dynamic
  | adt (hasPlaceholders : Bool) (hasParamTypesOrConsts : Bool)
deriving DecidableEq

/-- `Ty::is_ref`. -/
def MirTy.isRef : MirTy → Bool
  | .ref _ _ => true
  | _ => false

/-- `matches!(ty.kind(), ty::Ref(_, _, Mutability::Mut))` (report, line 926). -/
def MirTy.isMutRef : MirTy → Bool
  | .ref .mut' _ => true
  | _ => false

/-- Modelled from the spec: `clippy_utils::ty::peel_mid_ty_refs` is not
under `src/`; per the spec's stability rule it peels every reference
layer off a middle type, returning the peeled type and the number of
layers removed. -/
def peel_mid_ty_refs : MirTy → MirTy × Nat
  | .ref _ t => ((peel_mid_ty_refs t).1, (peel_mid_ty_refs t).2 + 1)
  | t => (t, 0)

mutual
/-- `rustc_hir::TyKind`, reduced to the constructors distinguished by
`is_binding_ty_auto_deref_stable` and `ty_contains_infer`
(dereference.rs lines 783-865).  `pathSeg args` stands for
`TyKind::Path(QPath::TypeRelative(_, seg) | QPath::Resolved(_, Path {
segments: [.., seg], .. }))` where `args` is the segment's generic
argument list (`seg.args` of `None` and of `Some` with an empty list are
indistinguishable to the source, so both map to `[]`); `pathOther` is
any other `TyKind::Path(_)`. -/
inductive HirTy where
  | slice (t : HirTy)
  | array (t : HirTy)
  | ptr (t : HirTy)
  | rptr (t : HirTy)
  | tup (ts : List HirTy)
  | bareFn (inputs : List HirTy) (output : Option HirTy)
  | pathSeg (args : List GenericArgM)
  | pathOther
  | traitObject
  | never
  | opaqueDef
  | infer
  | typeofK
  | err

/-- `rustc_hir::GenericArg`: a type argument, or any non-type argument
(lifetime / const / infer), which both source functions skip over. -/
inductive GenericArgM where
  | typeArg (t : HirTy)
  | otherArg
end

/-- Modelled from the spec: `clippy_utils::peel_hir_ty_refs` is not under
`src/`; it peels every `Rptr` layer off a HIR type, counting them. -/
def peel_hir_ty_refs : HirTy → HirTy × Nat
  | .rptr t => ((peel_hir_ty_refs t).1, (peel_hir_ty_refs t).2 + 1)
  | t => (t, 0)

mutual
/-- `ty_contains_infer` (dereference.rs lines 826-865): whether a HIR type
mentions an inferred (or otherwise unresolvable) type at some point. -/
def ty_contains_infer : HirTy → Bool
  | .slice t => ty_contains_infer t
  | .array t => ty_contains_infer t
  | .ptr t => ty_contains_infer t
  | .rptr t => ty_contains_infer t
  | .tup ts => tys_contain_infer ts
  | .bareFn inputs output =>
    if tys_contain_infer inputs then true
    else
      match output with
      | some t => ty_contains_infer t
      | none => false
  | .pathSeg args => args_contain_infer args
  | .pathOther => true
  | .opaqueDef => true
  | .infer => true
  | .typeofK => true
  | .err => true
  | .never => false
  | .traitObject => false

/-- `tys.iter().any(ty_contains_infer)`. -/
def tys_contain_infer : List HirTy → Bool
  | [] => false
  | t :: ts => ty_contains_infer t || tys_contain_infer ts

/-- `args.args.iter().any(|arg| ...)` over generic arguments, recursing
only into `GenericArg::Type`. -/
def args_contain_infer : List GenericArgM → Bool
  | [] => false
  | .typeArg t :: rest => ty_contains_infer t || args_contain_infer rest
  | .otherArg :: rest => args_contain_infer rest
end

/-- `is_binding_ty_auto_deref_stable` (dereference.rs lines 783-822):
auto-dereferencing into a binding of this declared type gives the same
result no matter how many references the initializer had.  The `rptr`
match arm reproduces the source's `TyKind::Rptr` arm; it is unreachable
because `peel_hir_ty_refs` has already removed every reference layer. -/
def is_binding_ty_auto_deref_stable (ty : HirTy) : Bool :=
  if (peel_hir_ty_refs ty).2 ≠ 1 then false
  else
    match hp : (peel_hir_ty_refs ty).1 with
    | .rptr t => is_binding_ty_auto_deref_stable t
    | .pathSeg args =>
      args.all fun a =>
        match a with
        | .typeArg t => !ty_contains_infer t
        | .otherArg => true
    | .slice _ => true
    | .array _ => true
    | .bareFn _ _ => true
    | .never => true
    | .tup _ => true
    | .ptr _ => true
    | .traitObject => true
    | .pathOther => true
    | .opaqueDef => false
    | .infer => false
    | .typeofK => false
    | .err => false
termination_by sizeOf ty
decreasing_by
  have key : ∀ (n : Nat) (s : HirTy), sizeOf s ≤ n →
      sizeOf (peel_hir_ty_refs s).1 ≤ sizeOf s := by
    intro n
    induction n with
    | zero =>
      intro s hs
      cases s <;> simp_all [peel_hir_ty_refs]
    | succ n ih =>
      intro s hs
      cases s <;> simp [peel_hir_ty_refs]
      case rptr t =>
        have hts : sizeOf t ≤ n := by simp at hs; omega
        have := ih t hts
        omega
  have h1 := key (sizeOf ty) ty (Nat.le_refl _)
  rw [hp] at h1
  simp at h1
  omega

/-- `is_param_auto_deref_stable` (dereference.rs lines 868-903): whether
a declared parameter type is stable when switching to auto-dereferencing. -/
def is_param_auto_deref_stable (ty : MirTy) : Bool :=
  if (peel_mid_ty_refs ty).2 ≠ 1 then false
  else
    match (peel_mid_ty_refs ty).1 with
    | .bool => true
    | .char => true
    | .int => true
    | .uint => true
    | .float => true
    | .foreign => true
    | .str => true
    | .array => true
    | .slice => true
    | .rawPtr => true
    | .fnDef => true
    | .fnPtr => true
    | .closure => true
    | .generator => true
    | .generatorWitness => true
    | .never => true
    | .tuple => true
    | .ref _ _ => true
    | .projection => true
    | .infer => false
    | .error => false
    | .param => false
    | .bound => false
    | .opaqueTy => false
    | .placeholder => false
    | .dynamic => false
    | .adt hp hptc => !(hp || hptc)

/-- The expression kinds distinguished by `try_parse_ref_op`
(dereference.rs lines 517-545).  `methodCall` / `call` carry the result
of the type-dependent resolution: `some m` when the callee resolves to
the `Deref`/`DerefMut` trait method (with the corresponding mutability),
`none` otherwise (this also covers the `?`-returning lookups).
`unaryDeref` carries `typeck.expr_ty(sub_expr).is_unsafe_ptr()`. -/
inductive ExprKindM where
  | methodCall (resolvedDerefTrait : Option Mutability)
  | call (resolvedDerefTrait : Option Mutability)
  | unaryDeref (operandIsRawPtr : Bool)
  | addrOfRef
  | otherExpr
deriving DecidableEq

/-- A reference operation considered by this lint pass (`enum RefOp`). -/
inductive RefOp where
  | method (m : Mutability)
  | deref
  | addrOf
deriving DecidableEq

/-- `try_parse_ref_op` (dereference.rs lines 517-545), with the
def-id resolution folded into `ExprKindM`. -/
def try_parse_ref_op : ExprKindM → Option RefOp
  | .methodCall (some m) => some (.method m)
  | .methodCall none => none
  | .call (some m) => some (.method m)
  | .call none => none
  | .unaryDeref operandIsRawPtr => if operandIsRawPtr then none else some .deref
  | .addrOfRef => some .addrOf
  | .otherExpr => none

/-- `matches!(expr.kind, ExprKind::Call(..))` (`is_final_ufcs`). -/
def isCallKind : ExprKindM → Bool
  | .call _ => true
  | _ => false

/-- The parent-expression kinds distinguished by
`is_linted_explicit_deref_position`, `is_auto_reborrow_position` and
`is_auto_borrow_position` (dereference.rs lines 562-639).  The
`MethodCall`/`Call` cases are split by whether the visited child is the
receiver/callee or some other operand. -/
inductive ParentExprKindM where
  | methodCallReceiver
  | methodCallOther
  | callCallee
  | callOther
  | unaryDerefParent
  | tryOrAwaitDesugarMatch
  | fieldAccess
  | indexAccess
  | errParent
  | assign
  | otherParent
deriving DecidableEq

/-- `get_parent_node` result, reduced to what the three position checks
inspect.  `sameCtxt` is `parent.span.ctxt() == child_span.ctxt()`. -/
inductive NodeM where
  | expr (k : ParentExprKindM) (sameCtxt : Bool)
  | localNode
  | otherNode
  | noParent
deriving DecidableEq

/-- `is_linted_explicit_deref_position` (dereference.rs lines 562-615):
parent contexts in which switching a deref method call to operator form
is linted.  Everything that is not an expression parent in the same
syntax context qualifies; among expression parents, method-call
receivers, call callees, deref operands, try/await-desugared matches,
field/index bases and `Err` do not. -/
def is_linted_explicit_deref_position : NodeM → Bool
  | .expr k sameCtxt =>
    if sameCtxt then
      match k with
      | .methodCallReceiver => false
      | .callCallee => false
      | .unaryDerefParent => false
      | .tryOrAwaitDesugarMatch => false
      | .fieldAccess => false
      | .indexAccess => false
      | .errParent => false
      | _ => true
    else true
  | _ => true

/-- `is_auto_reborrow_position` (dereference.rs lines 617-625): a
`Call`/`MethodCall` expression parent or a `Local` parent. -/
def is_auto_reborrow_position : NodeM → Bool
  | .expr k _ =>
    match k with
    | .methodCallReceiver => true
    | .methodCallOther => true
    | .callCallee => true
    | .callOther => true
    | _ => false
  | .localNode => true
  | _ => false

/-- `is_auto_borrow_position` (dereference.rs lines 627-639): a field
access, or the callee of a call (the method-call receiver case is
commented out in the source). -/
def is_auto_borrow_position : NodeM → Bool
  | .expr .fieldAccess _ => true
  | .expr .callCallee _ => true
  | _ => false

/-- `rustc_ast::util::parser::PREC_PREFIX` (external constant). -/
def PREC_PREFIX : Int := 50

/-- `rustc_ast::util::parser::PREC_POSTFIX` (external constant). -/
def PREC_POSTFIX : Int := 60

/-- Every attribute of a visited expression that `check_expr` and
`report` consume.  `adjustments` is the result of `find_adjustments`
(the walk into enclosing blocks/break targets is part of the external
traversal collaborators); `stable` is the result of
`is_stable_auto_deref_position` (whose parent walk is driven by
`clippy_utils::walk_to_expr_usage`, external to this file — its leaf
type checks are embedded above); `exprStr`/`exprIsMacroCall` are the
result of the external snippet extraction; `precedence` is
`expr.precedence().order()`. -/
structure ExprAttrs where
  hirId : Nat
  span : Span
  kind : ExprKindM
  parent : NodeM
  adjustments : List Adjustment
  lintAllowedExplicitDerefMethods : Bool
  exprTy : MirTy
  subExprTy : MirTy
  stable : Bool
  exprStr : String
  exprIsMacroCall : Bool
  precedence : Int
deriving DecidableEq

/-- `deref_method_same_type` (dereference.rs lines 549-558). -/
def deref_method_same_type : MirTy → MirTy → Bool
  | .ref _ resultTy, .ref _ argTy => resultTy = argTy
  | _, _ => false

/-- The adjustment walk of `check_expr`'s `RefOp::AddrOf` arm
(dereference.rs lines 271-287): count leading `Adjust::Deref` steps,
stopping after a deref whose target is not a reference (returning the
following adjustment) or at the first non-deref adjustment. -/
def walk_adjustments : List Adjustment → Nat × Option Adjustment
  | [] => (0, none)
  | a :: rest =>
    match a.kind with
    | .derefAdj =>
      if a.targetIsRef then
        ((walk_adjustments rest).1 + 1, (walk_adjustments rest).2)
      else
        (1, rest.head?)
    | _ => (0, some a)

/-- Lint message constant (dereference.rs lines 309-310). -/
def deref_msg : String :=
  "this expression creates a reference which is immediately dereferenced by the compiler"

/-- Lint message constant (dereference.rs line 311). -/
def borrow_msg : String :=
  "this expression borrows a value the compiler would automatically borrow"

/-- `check_expr`'s required-reference computation (dereference.rs lines
313-328): the number of references that must be left in place, the
precedence the replacement must have, and the lint message. -/
def required_refs_prec_msg (parent : NodeM) (nextAdjust : Option Adjustment)
    (derefCount : Nat) : Nat × Int × String :=
  if is_auto_borrow_position parent then
    (1, PREC_POSTFIX, if derefCount = 1 then borrow_msg else deref_msg)
  else
    match nextAdjust with
    | some ⟨.borrowAdj (.refBorrow m), _⟩ =>
      if m = .mutBorrow ∧ is_auto_reborrow_position parent = false then
        (3, 0, deref_msg)
      else
        (2, 0, deref_msg)
    | _ => (2, 0, deref_msg)

/-- The chain state machine's states (`enum State`, dereference.rs lines
168-191). -/
inductive State where
  | derefMethod (tyChangedCount : Nat) (isFinalUfcs : Bool) (targetMut : Mutability)
  | derefedBorrow (count : Nat) (requiredPrecedence : Int) (msg : String)
  | explicitDeref (derefSpan : Span) (derefHirId : Nat)
  | reborrow (derefSpan : Span) (derefHirId : Nat)
  | borrow
deriving DecidableEq

/-- `struct StateData`: span and id of the chain's top-level expression. -/
structure StateData where
  span : Span
  hirId : Nat
deriving DecidableEq

/-- The four lint categories the pass can emit. -/
inductive LintName where
  | explicitDerefMethods
  | needlessBorrow
  | refBindingToReference
  | explicitAutoDeref
deriving DecidableEq

/-- One diagnostic handed to the external sink by `report`. -/
structure Finding where
  lint : LintName
  span : Span
  hirId : Nat
  msg : String
  sugg : String
deriving DecidableEq

/-- `"*".repeat(n)` etc. -/
def strRepeat (s : String) (n : Nat) : String := String.join (List.replicate n s)

/-- Modelled from the spec: `clippy_utils::sugg::has_enclosing_paren` is
not under `src/`; the spec describes it as the parenthesization test on
an extracted snippet. -/
def has_enclosing_paren (s : String) : Bool := s.startsWith "(" && s.endsWith ")"

/-- `report` (dereference.rs lines 906-996), with `expr` the expression
at which the chain broke and `data` the chain anchor.  Returns the
single diagnostic emitted, or `none` for `Borrow`/`Reborrow`. -/
def report_model (e : ExprAttrs) (st : State) (data : StateData) : Option Finding :=
  match st with
  | .derefMethod tyChangedCount isFinalUfcs targetMut =>
    let refCount := (peel_mid_ty_refs e.exprTy).2
    let derefStr :=
      if tyChangedCount ≥ refCount ∧ refCount ≠ 0 then
        strRepeat "*" (tyChangedCount + 1)
      else
        strRepeat "*" tyChangedCount
    let addrOfStr :=
      if tyChangedCount < refCount then
        if targetMut = .not ∧ MirTy.isMutRef e.exprTy then "&*" else ""
      else if targetMut = .mut' then "&mut "
      else "&"
    let exprStr :=
      if !e.exprIsMacroCall && isFinalUfcs && decide (e.precedence < PREC_PREFIX) then
        "(" ++ e.exprStr ++ ")"
      else
        e.exprStr
    some { lint := .explicitDerefMethods, span := data.span, hirId := data.hirId,
           msg := match targetMut with
                  | .not => "explicit `deref` method call"
                  | .mut' => "explicit `deref_mut` method call",
           sugg := addrOfStr ++ derefStr ++ exprStr }
  | .derefedBorrow _ requiredPrecedence msg =>
    let snip := e.exprStr
    let sugg :=
      if requiredPrecedence > e.precedence ∧ has_enclosing_paren snip = false then
        "(" ++ snip ++ ")"
      else snip
    some { lint := .needlessBorrow, span := data.span, hirId := data.hirId,
           msg := msg, sugg := sugg }
  | .explicitDeref derefSpan derefHirId =>
    let anchor :=
      if MirTy.isRef e.exprTy then (data.span, data.hirId) else (derefSpan, derefHirId)
    some { lint := .explicitAutoDeref, span := anchor.1, hirId := anchor.2,
           msg := "deref which would be done by auto-deref", sugg := e.exprStr }
  | .borrow => none
  | .reborrow _ _ => none

/-- `check_expr`'s `(None, RefOp::AddrOf)` arm after the adjustment walk
(dereference.rs lines 313-352): open `DerefedBorrow` when enough
implicit dereferences absorb the borrow, otherwise `Borrow` when the
position is a stable auto-deref position, otherwise nothing. -/
def addr_of_open (e : ExprAttrs) : Option (State × StateData) :=
  let w := walk_adjustments e.adjustments
  let r := required_refs_prec_msg e.parent w.2 w.1
  if w.1 ≥ r.1 then
    some (.derefedBorrow (w.1 - r.1) r.2.1 r.2.2, { span := e.span, hirId := e.hirId })
  else if e.stable then
    some (.borrow, { span := e.span, hirId := e.hirId })
  else
    none

/-- One `check_expr` call (dereference.rs lines 215-444) as a transition
of the chain state machine: consumes the machine's state and the visited
expression's attributes, produces the new state and the diagnostics
emitted during the call.  (`skip_expr` is dead in this version of the
source — it is never set — and `check_local_usage` belongs to the
ref-pattern tracker, modelled separately below.) -/
def check_expr_step (st : Option (State × StateData)) (e : ExprAttrs) :
    Option (State × StateData) × List Finding :=
  if e.span.fromExpansion then
    match st with
    | some (s, d) => (none, (report_model e s d).toList)
    | none => (none, [])
  else
    match try_parse_ref_op e.kind with
    | none =>
      match st with
      | some (s, d) => (none, (report_model e s d).toList)
      | none => (none, [])
    | some kind =>
      match st, kind with
      | none, .method targetMut =>
        if !e.lintAllowedExplicitDerefMethods && is_linted_explicit_deref_position e.parent then
          (some (.derefMethod
                   (if deref_method_same_type e.exprTy e.subExprTy then 0 else 1)
                   (isCallKind e.kind) targetMut,
                 { span := e.span, hirId := e.hirId }), [])
        else (none, [])
      | none, .addrOf => (addr_of_open e, [])
      | none, .deref => (none, [])
      | some (.derefMethod tyChangedCount _ targetMut, data), .method _ =>
        (some (.derefMethod
                 (if deref_method_same_type e.exprTy e.subExprTy then tyChangedCount
                  else tyChangedCount + 1)
                 (isCallKind e.kind) targetMut, data), [])
      | some (.derefedBorrow count rp m, data), .addrOf =>
        if count ≠ 0 then
          (some (.derefedBorrow (count - 1) rp m, data), [])
        else
          (none, (report_model e (.derefedBorrow count rp m) data).toList)
      | some (.borrow, data), .deref =>
        if MirTy.isRef e.subExprTy then
          (some (.reborrow e.span e.hirId, data), [])
        else
          (some (.explicitDeref e.span e.hirId, data), [])
      | some (.reborrow ds di, data), .deref =>
        (some (.explicitDeref ds di, data), [])
      | some (.explicitDeref ds di, data), .deref =>
        (some (.explicitDeref ds di, data), [])
      | some (s, data), _ => (none, (report_model e s data).toList)

/-- `struct RefPat` (dereference.rs lines 200-211).  The `app`
(applicability) field is threaded through the external snippet
extraction and is not part of the decision logic embedded here. -/
structure RefPatM where
  alwaysDeref : Bool
  spans : List Span
  replacements : List (Span × String)
  hirId : Nat
deriving DecidableEq

/-- The parent contexts `check_local_usage` distinguishes for a usage of
a tracked binding (dereference.rs lines 1017-1052). -/
inductive UsageParentM where
  | fieldParent
  | unaryDerefParentU (span : Span)
  | otherParentU (span : Span) (precedence : Int)
  | noParentU
deriving DecidableEq

/-- The attributes of one read usage of a tracked binding:
`cx.typeck_results().expr_adjustments(e)`, the `get_parent_expr` result,
the usage's own span and its extracted snippet. -/
structure UsageInfo where
  adjustments : List Adjustment
  parent : UsageParentM
  span : Span
  snip : String
deriving DecidableEq

/-- The adjustment-prefix pattern of `check_local_usage` (dereference.rs
lines 1003-1016): the usage's adjustment list begins with two
consecutive `Adjust::Deref` steps. -/
def adjusts_start_two_derefs : List Adjustment → Bool
  | a :: b :: _ =>
    (match a.kind with | .derefAdj => true | _ => false) &&
    (match b.kind with | .derefAdj => true | _ => false)
  | _ => false

/-- The body of `Dereferencing::check_local_usage` (dereference.rs lines
999-1057) acting on one tracked `RefPat`: returns the updated pattern,
or `none` when the binding is permanently disqualified (the source's
`*outer_pat = None`). -/
def check_local_usage_model (pat : RefPatM) (u : UsageInfo) : Option RefPatM :=
  if adjusts_start_two_derefs u.adjustments then some pat
  else
    match u.parent with
    | .fieldParent => some pat
    | .unaryDerefParentU pspan =>
      if pspan.fromExpansion = false then
        some { pat with replacements := pat.replacements ++ [(pspan, u.snip)] }
      else if u.span.fromExpansion = false then
        some { pat with alwaysDeref := false,
                        replacements := pat.replacements ++ [(u.span, "&" ++ u.snip)] }
      else none
    | .otherParentU pspan prec =>
      if pspan.fromExpansion = false then
        if prec = PREC_POSTFIX then none
        else
          some { pat with alwaysDeref := false,
                          replacements := pat.replacements ++ [(u.span, "&" ++ u.snip)] }
      else if u.span.fromExpansion = false then
        some { pat with alwaysDeref := false,
                        replacements := pat.replacements ++ [(u.span, "&" ++ u.snip)] }
      else none
    | .noParentU =>
      if u.span.fromExpansion = false then
        some { pat with alwaysDeref := false,
                        replacements := pat.replacements ++ [(u.span, "&" ++ u.snip)] }
      else none

/-- `rustc_hir::BindingAnnotation`, reduced to the four binding modes;
`check_pat` only reacts to `BindingAnnotation::Ref`. -/
inductive BindingAnnotationM where
  | unannotated
  | mutableAnn
  | refAnn
  | refMutAnn
deriving DecidableEq

/-- The pattern kinds `check_pat` distinguishes: a binding pattern with
its annotation and the bound local's id, or anything else. -/
inductive PatKindM where
  | binding (ann : BindingAnnotationM) (id : Nat)
  | otherPat
deriving DecidableEq

/-- The attributes of one visited pattern: its kind, span, the
`pat_ty` query result, its hir id, and the extracted name snippet. -/
structure PatAttrs where
  kind : PatKindM
  span : Span
  ty : MirTy
  hirId : Nat
  nameSnip : String
deriving DecidableEq

/-- The `ref_locals` map (`FxIndexMap<HirId, Option<RefPat>>`) as an
insertion-ordered association list; a `none` value is the tombstone for
a binding seen but permanently disqualified. -/
abbrev RefLocals := List (Nat × Option RefPatM)

/-- Key lookup in `ref_locals`. -/
def lookupLocal : RefLocals → Nat → Option (Option RefPatM)
  | [], _ => none
  | (k, v) :: rest, id => if k = id then some v else lookupLocal rest id

/-- Overwrite the value at an existing key (appends when absent, matching
`FxIndexMap` insertion order). -/
def setLocal : RefLocals → Nat → Option RefPatM → RefLocals
  | [], id, v => [(id, v)]
  | (k, w) :: rest, id, v =>
    if k = id then (k, v) :: rest else (k, w) :: setLocal rest id v

/-- Remove a key entirely (used only to state that a tombstoned binding
contributes nothing at flush). -/
def removeLocal : RefLocals → Nat → RefLocals
  | [], _ => []
  | (k, v) :: rest, id => if k = id then rest else (k, v) :: removeLocal rest id

/-- `Dereferencing::check_pat` (dereference.rs lines 446-489) acting on
the `ref_locals` map.  (The `current_body` bookkeeping ties the flush to
the outermost body and is part of the traversal collaboration.) -/
def check_pat_model (locals : RefLocals) (p : PatAttrs) : RefLocals :=
  match p.kind with
  | .binding .refAnn id =>
    match lookupLocal locals id with
    | some optPrev =>
      match optPrev with
      | some prev =>
        if p.span.fromExpansion then setLocal locals id none
        else
          setLocal locals id
            (some { prev with
                      spans := prev.spans ++ [p.span],
                      replacements := prev.replacements ++ [(p.span, p.nameSnip)] })
      | none => locals
    | none =>
      if p.span.fromExpansion = false then
        match p.ty with
        | .ref _ (.ref .not _) =>
          locals ++ [(id, some { alwaysDeref := true,
                                 spans := [p.span],
                                 replacements := [(p.span, p.nameSnip)],
                                 hirId := p.hirId })]
        | _ => locals
      else locals
  | _ => locals

/-- One finding flushed for a tracked ref pattern by `check_body_post`. -/
structure PatFinding where
  lint : LintName
  hirId : Nat
  spans : List Span
  msg : String
  replacements : List (Span × String)
deriving DecidableEq

/-- `Dereferencing::check_body_post` (dereference.rs lines 491-514): at
the flush of the tracked body, every non-tombstoned `RefPat` becomes one
finding; `always_deref` selects between the needless-borrow and the
ref-binding-to-reference categories. -/
def check_body_post_model (locals : RefLocals) : List PatFinding :=
  (locals.filterMap fun kv => kv.2).map fun pat =>
    { lint := if pat.alwaysDeref then .needlessBorrow else .refBindingToReference,
      hirId := pat.hirId,
      spans := pat.spans,
      msg := "this pattern creates a reference to a reference",
      replacements := pat.replacements }

/-- The automatic re-borrow positions as claim C1 words them: assignment
targets, local-binding initializers, and call/method-call argument
positions.  (Written from the spec's words, to be compared with the
source's `is_auto_reborrow_position`.) -/
def spec_is_auto_reborrow_position : NodeM → Bool
  | .expr k _ =>
    match k with
    | .methodCallReceiver => true
    | .methodCallOther => true
    | .callCallee => true
    | .callOther => true
    | .assign => true
    | _ => false
  | .localNode => true
  | _ => false

/-- The required-reference count as claim C1 words it: 1 at an implicit
borrow position, 3 for an implicit mutable re-borrow at a position where
re-borrow insertion is not automatic (with `spec_is_auto_reborrow_position`
as the automatic positions), 2 otherwise. -/
def spec_required_refs (parent : NodeM) (nextAdjust : Option Adjustment) : Nat :=
  if is_auto_borrow_position parent then 1
  else
    match nextAdjust with
    | some ⟨.borrowAdj (.refBorrow m), _⟩ =>
      if m = .mutBorrow ∧ spec_is_auto_reborrow_position parent = false then 3 else 2
    | _ => 2

/-- The parameter-type shapes claim C5 lists as unconditionally stable:
primitive scalar, array, slice, raw pointer, function item/pointer,
closure, generator, never, tuple, reference, associated-type projection.
(Written from the spec's words, to be compared with the source's
`is_param_auto_deref_stable`.) -/
def spec_listed_param_shape : MirTy → Bool
  | .bool => true
  | .char => true
  | .int => true
  | .uint => true
  | .float => true
  | .array => true
  | .slice => true
  | .rawPtr => true
  | .fnDef => true
  | .fnPtr => true
  | .closure => true
  | .generator => true
  | .never => true
  | .tuple => true
  | .ref _ _ => true
  | .projection => true
  | _ => false

/-- The number of implicit dereference steps counted for a borrow
expression (`deref_count` in `check_expr`'s AddrOf arm). -/
def derefCountOf (e : ExprAttrs) : Nat := (walk_adjustments e.adjustments).1

/-- The adjustment following the counted dereference steps
(`next_adjust` in `check_expr`'s AddrOf arm). -/
def nextAdjustOf (e : ExprAttrs) : Option Adjustment := (walk_adjustments e.adjustments).2

/-- The required-reference count computed for a borrow expression
(`required_refs` in `check_expr`'s AddrOf arm). -/
def requiredRefsOf (e : ExprAttrs) : Nat :=
  (required_refs_prec_msg e.parent (nextAdjustOf e) (derefCountOf e)).1

def stringTy : MirTy := .adt false false

/-- The `a.deref()` expression of the C9 scenario: receiver `a` of
declared type `&mut String`, in a local-binding initializer position. -/
def c9DerefCall : ExprAttrs :=
  { hirId := 1, span := { fromExpansion := false, ctxt := 0, id := 1 },
    kind := .methodCall (some .not), parent := .localNode, adjustments := [],
    lintAllowedExplicitDerefMethods := false,
    exprTy := .ref .not .str, subExprTy := .ref .mut' stringTy,
    stable := false, exprStr := "a.deref()", exprIsMacroCall := false,
    precedence := 60 }

/-- The path expression `a` visited next in the C9 scenario. -/
def c9PathA : ExprAttrs :=
  { hirId := 2, span := { fromExpansion := false, ctxt := 0, id := 2 },
    kind := .otherExpr, parent := .expr .methodCallReceiver true, adjustments := [],
    lintAllowedExplicitDerefMethods := false,
    exprTy := .ref .mut' stringTy, subExprTy := .ref .mut' stringTy,
    stable := false, exprStr := "a", exprIsMacroCall := false,
    precedence := 99 }

/-- C1 counterexample input: a borrow in an assignment-target position
whose coercions are two implicit dereferences followed by an implicit
mutable re-borrow. -/
def c1Assign : ExprAttrs :=
  { hirId := 3, span := { fromExpansion := false, ctxt := 0, id := 3 },
    kind := .addrOfRef, parent := .expr .assign true,
    adjustments := [ { kind := .derefAdj, targetIsRef := true },
                     { kind := .derefAdj, targetIsRef := false },
                     { kind := .borrowAdj (.refBorrow .mutBorrow), targetIsRef := true } ],
    lintAllowedExplicitDerefMethods := true,
    exprTy := .ref .not .int, subExprTy := .int,
    stable := false, exprStr := "&x", exprIsMacroCall := false,
    precedence := 50 }

/-- C1 witness input: a borrow in a field-access position with two
counted implicit dereferences. -/
def c1Field : ExprAttrs :=
  { hirId := 4, span := { fromExpansion := false, ctxt := 0, id := 4 },
    kind := .addrOfRef, parent := .expr .fieldAccess true,
    adjustments := [ { kind := .derefAdj, targetIsRef := true },
                     { kind := .derefAdj, targetIsRef := false } ],
    lintAllowedExplicitDerefMethods := true,
    exprTy := .ref .not .int, subExprTy := .int,
    stable := false, exprStr := "&x", exprIsMacroCall := false,
    precedence := 50 }

/-- C2 exhibit: an `AddrOf` node in a stable position that, processed
with an empty machine, opens a `Borrow` state. -/
def c2AddrOf : ExprAttrs :=
  { hirId := 5, span := { fromExpansion := false, ctxt := 0, id := 5 },
    kind := .addrOfRef, parent := .expr .otherParent true, adjustments := [],
    lintAllowedExplicitDerefMethods := true,
    exprTy := .ref .not .int, subExprTy := .int,
    stable := true, exprStr := "&y", exprIsMacroCall := false,
    precedence := 50 }

/-- C2 exhibit: the anchor data of the already-open chain. -/
def c2Data : StateData := { span := { fromExpansion := false, ctxt := 0, id := 90 }, hirId := 90 }

/-- C3 witness input: an explicit dereference of a non-raw-pointer
operand whose operand type is a reference. -/
def c3Deref : ExprAttrs :=
  { hirId := 6, span := { fromExpansion := false, ctxt := 0, id := 6 },
    kind := .unaryDeref false, parent := .expr .otherParent true, adjustments := [],
    lintAllowedExplicitDerefMethods := true,
    exprTy := .int, subExprTy := .ref .not .int,
    stable := false, exprStr := "*y", exprIsMacroCall := false,
    precedence := 50 }

/-- C10 witness input: a borrow in a field-access position with three
counted implicit dereferences, so a `DerefedBorrow` with remaining
count 2 opens. -/
def c10Open : ExprAttrs :=
  { hirId := 7, span := { fromExpansion := false, ctxt := 0, id := 7 },
    kind := .addrOfRef, parent := .expr .fieldAccess true,
    adjustments := [ { kind := .derefAdj, targetIsRef := true },
                     { kind := .derefAdj, targetIsRef := true },
                     { kind := .derefAdj, targetIsRef := false } ],
    lintAllowedExplicitDerefMethods := true,
    exprTy := .ref .not .int, subExprTy := .int,
    stable := false, exprStr := "&z", exprIsMacroCall := false,
    precedence := 50 }

/-- Witness tracked pattern for the tracker claims. -/
def wPat : RefPatM :=
  { alwaysDeref := true,
    spans := [{ fromExpansion := false, ctxt := 0, id := 20 }],
    replacements := [({ fromExpansion := false, ctxt := 0, id := 20 }, "x")],
    hirId := 21 }

/-- Witness usage for C6: adjustments already start with two implicit
dereferences. -/
def wUsageTwoDerefs : UsageInfo :=
  { adjustments := [ { kind := .derefAdj, targetIsRef := true },
                     { kind := .derefAdj, targetIsRef := false } ],
    parent := .otherParentU { fromExpansion := false, ctxt := 0, id := 22 } 0,
    span := { fromExpansion := false, ctxt := 0, id := 23 }, snip := "x" }

/-- Witness pattern occurrence for C7: a non-macro `ref` binding whose
bound type is `&&T` with an immutable inner reference. -/
def wRefPatOcc : PatAttrs :=
  { kind := .binding .refAnn 40,
    span := { fromExpansion := false, ctxt := 0, id := 41 },
    ty := .ref .not (.ref .not .int), hirId := 42, nameSnip := "x" }

/-- Witness pattern occurrence for C8: a second arm of the same binding
inside a macro expansion. -/
def wRefPatMacroOcc : PatAttrs :=
  { kind := .binding .refAnn 40,
    span := { fromExpansion := true, ctxt := 1, id := 43 },
    ty := .ref .not (.ref .not .int), hirId := 44, nameSnip := "x" }

/-- C4: finalizing the chain state machine in state `Borrow` or
`Reborrow` emits no diagnostic at all, while finalizing `DerefMethod`,
`DerefedBorrow` and `ExplicitDeref` each emit exactly one diagnostic of
their respective category (explicit deref/deref_mut method call,
needless borrow, explicit auto-deref). -/
theorem c4_report_categories :
    (∀ (e : ExprAttrs) (data : StateData), report_model e .borrow data = none) ∧
    (∀ (e : ExprAttrs) (data : StateData) (ds : Span) (di : Nat),
      report_model e (.reborrow ds di) data = none) ∧
    (∀ (e : ExprAttrs) (data : StateData) (n : Nat) (b : Bool) (m : Mutability),
      (report_model e (.derefMethod n b m) data).map Finding.lint
        = some .explicitDerefMethods) ∧
    (∀ (e : ExprAttrs) (data : StateData) (c : Nat) (rp : Int) (s : String),
      (report_model e (.derefedBorrow c rp s) data).map Finding.lint
        = some .needlessBorrow) ∧
    (∀ (e : ExprAttrs) (data : StateData) (ds : Span) (di : Nat),
      (report_model e (.explicitDeref ds di) data).map Finding.lint
        = some .explicitAutoDeref) :=
  ⟨fun _ _ => rfl, fun _ _ _ _ => rfl, fun _ _ _ _ _ => rfl,
   fun _ _ _ _ _ => rfl, fun _ _ _ _ => rfl⟩

/-- C3: in state `Borrow`, a `Deref` step advances to `Reborrow` exactly
when the dereference operand's type is itself a reference and to
`ExplicitDeref` otherwise, recording the dereferencing expression's own
span and id; a `Deref` in `Reborrow` advances to `ExplicitDeref`, and a
`Deref` in `ExplicitDeref` stays `ExplicitDeref`. -/
theorem c3_deref_transitions :
    (∀ (data : StateData) (e : ExprAttrs),
      e.span.fromExpansion = false → e.kind = .unaryDeref false →
      check_expr_step (some (.borrow, data)) e =
        (some ((if MirTy.isRef e.subExprTy then State.reborrow e.span e.hirId
                else State.explicitDeref e.span e.hirId), data), [])) ∧
    (∀ (data : StateData) (e : ExprAttrs) (ds : Span) (di : Nat),
      e.span.fromExpansion = false → e.kind = .unaryDeref false →
      check_expr_step (some (.reborrow ds di, data)) e =
        (some (.explicitDeref ds di, data), [])) ∧
    (∀ (data : StateData) (e : ExprAttrs) (ds : Span) (di : Nat),
      e.span.fromExpansion = false → e.kind = .unaryDeref false →
      check_expr_step (some (.explicitDeref ds di, data)) e =
        (some (.explicitDeref ds di, data), [])) := by
  refine ⟨?_, ?_, ?_⟩
  · intro data e h1 h2
    simp [check_expr_step, h1, h2, try_parse_ref_op]
    split <;> simp
  · intro data e ds di h1 h2
    simp [check_expr_step, h1, h2, try_parse_ref_op]
  · intro data e ds di h1 h2
    simp [check_expr_step, h1, h2, try_parse_ref_op]

/-- C3 witness: the `Borrow` transition at a concrete dereference whose
operand is a reference, the `Reborrow` and `ExplicitDeref` transitions
at the same node. -/
theorem c3_witness :
    c3Deref.span.fromExpansion = false ∧
    check_expr_step (some (.borrow, c2Data)) c3Deref =
      (some ((if MirTy.isRef c3Deref.subExprTy then State.reborrow c3Deref.span c3Deref.hirId
              else State.explicitDeref c3Deref.span c3Deref.hirId), c2Data), []) ∧
    check_expr_step (some (.reborrow c3Deref.span 6, c2Data)) c3Deref =
      (some (.explicitDeref c3Deref.span 6, c2Data), []) :=
  ⟨rfl, (c3_deref_transitions.1 c2Data c3Deref rfl rfl),
   (c3_deref_transitions.2.1 c2Data c3Deref c3Deref.span 6 rfl rfl)⟩

/-- C9 counterexample: on the spec's own scenario (`let a: &mut String =
&mut String::from("x"); let b: &str = a.deref();`) the pass's suggested
replacement is `&**a`, not `&*a` as the claim states. -/
theorem c9_sugg_counterexample :
    (check_expr_step (check_expr_step none c9DerefCall).1 c9PathA).2.map Finding.sugg
        = ["&**a"] ∧
    ¬ ((check_expr_step (check_expr_step none c9DerefCall).1 c9PathA).2.map Finding.sugg
        = ["&*a"]) := by
  decide

/-- C9 (amended): on the scenario `let a: &mut String = &mut
String::from("x"); let b: &str = a.deref();` the pass opens a
`DerefMethod` chain at `a.deref()` and, when the chain breaks at `a`,
emits exactly one finding of the explicit-`deref`-method-call category
whose suggested replacement text is exactly `&**a`. -/
theorem c9_deref_method_finding :
    check_expr_step none c9DerefCall =
      (some (.derefMethod 1 false .not, { span := c9DerefCall.span, hirId := 1 }), []) ∧
    check_expr_step (check_expr_step none c9DerefCall).1 c9PathA =
      (none, [{ lint := .explicitDerefMethods, span := c9DerefCall.span, hirId := 1,
                msg := "explicit `deref` method call", sugg := "&**a" }]) := by
  decide

/-- C2 counterexample: with an open `DerefedBorrow` whose remaining count
is 0, a further `AddrOf` node leaves the machine empty — the breaking
node is not reprocessed as a fresh chain start, even though processing
the very same node with an empty machine would open a `Borrow` state. -/
theorem c2_no_reprocess_counterexample :
    (check_expr_step (some (.derefedBorrow 0 0 deref_msg, c2Data)) c2AddrOf).1 = none ∧
    (check_expr_step none c2AddrOf).1 =
      some (.borrow, { span := c2AddrOf.span, hirId := c2AddrOf.hirId }) := by
  decide

/-- C2 (amended): for every open `DerefedBorrow` state whose remaining
count has reached 0, a further `AddrOf` node breaks the chain — the
state is finalized during the breaking node's visitation into exactly
one needless-borrow finding anchored at the chain-start expression, and
the machine's state becomes empty (the breaking node itself opens no new
state; only nodes visited afterwards can start a fresh chain). -/
theorem c2_break_finalizes (rp : Int) (m : String) (data : StateData) (e : ExprAttrs)
    (h1 : e.span.fromExpansion = false) (h2 : e.kind = .addrOfRef) :
    ∃ f, check_expr_step (some (.derefedBorrow 0 rp m, data)) e = (none, [f]) ∧
      f.lint = .needlessBorrow ∧ f.hirId = data.hirId ∧ f.span = data.span := by
  refine ⟨{ lint := .needlessBorrow, span := data.span, hirId := data.hirId, msg := m,
            sugg := if rp > e.precedence ∧ has_enclosing_paren e.exprStr = false
                    then "(" ++ e.exprStr ++ ")" else e.exprStr }, ?_, rfl, rfl, rfl⟩
  simp [check_expr_step, h1, h2, try_parse_ref_op, report_model]

/-- C2 witness: the finalize-without-reprocessing behaviour at a concrete
breaking `AddrOf` node. -/
theorem c2_witness :
    c2AddrOf.span.fromExpansion = false ∧
    ∃ f, check_expr_step (some (.derefedBorrow 0 0 deref_msg, c2Data)) c2AddrOf = (none, [f]) ∧
      f.lint = .needlessBorrow ∧ f.hirId = c2Data.hirId ∧ f.span = c2Data.span :=
  ⟨rfl, c2_break_finalizes 0 deref_msg c2Data c2AddrOf rfl rfl⟩

/-- C1 counterexample: a borrow in an assignment-target position whose
coercion chain ends with an implicit mutable re-borrow.  The claim
counts assignment targets among the automatic re-borrow positions, so it
requires 2 references and (with 2 counted dereference steps) demands a
`DerefedBorrow` with remaining count 0; the source treats an assignment
target as non-automatic, computes 3 required references and opens no
state at all. -/
theorem c1_assign_counterexample :
    spec_required_refs c1Assign.parent (nextAdjustOf c1Assign) = 2 ∧
    derefCountOf c1Assign = 2 ∧
    requiredRefsOf c1Assign = 3 ∧
    (check_expr_step none c1Assign).1 = none := by
  decide

/-- C1 (amended): for a chain starting with an `AddrOf` expression, the
required-reference count is 1 when the position triggers an implicit
borrow (field access or call callee), 3 when the walked coercion chain
ends with an implicit mutable re-borrow at a position where re-borrow
insertion is not automatic — the automatic positions being local-binding
initializers and call/method-call positions (assignment targets are not
automatic) — and 2 in every other case; a `DerefedBorrow` state opens
iff the counted implicit-dereference steps reach this required count,
and its remaining count is the counted steps minus the required count. -/
theorem c1_required_refs_and_open (e : ExprAttrs)
    (h1 : e.span.fromExpansion = false) (h2 : e.kind = .addrOfRef) :
    (derefCountOf e ≥ requiredRefsOf e →
      ∃ rp m, (check_expr_step none e).1 =
        some (.derefedBorrow (derefCountOf e - requiredRefsOf e) rp m,
              { span := e.span, hirId := e.hirId })) ∧
    (derefCountOf e < requiredRefsOf e →
      ∀ c rp m sd, (check_expr_step none e).1 ≠ some (.derefedBorrow c rp m, sd)) ∧
    (is_auto_borrow_position e.parent = true → requiredRefsOf e = 1) ∧
    (is_auto_borrow_position e.parent = false →
      (∀ a, nextAdjustOf e = some a → a.kind = .borrowAdj (.refBorrow .mutBorrow) →
        is_auto_reborrow_position e.parent = false → requiredRefsOf e = 3) ∧
      (∀ a, nextAdjustOf e = some a → a.kind = .borrowAdj (.refBorrow .mutBorrow) →
        is_auto_reborrow_position e.parent = true → requiredRefsOf e = 2) ∧
      (∀ a, nextAdjustOf e = some a → a.kind ≠ .borrowAdj (.refBorrow .mutBorrow) →
        requiredRefsOf e = 2) ∧
      (nextAdjustOf e = none → requiredRefsOf e = 2)) := by
  have hstep : (check_expr_step none e).1 = addr_of_open e := by
    simp [check_expr_step, h1, h2, try_parse_ref_op]
  refine ⟨?_, ?_, ?_, ?_⟩
  · intro hge
    rw [hstep]
    refine ⟨(required_refs_prec_msg e.parent (nextAdjustOf e) (derefCountOf e)).2.1,
            (required_refs_prec_msg e.parent (nextAdjustOf e) (derefCountOf e)).2.2, ?_⟩
    simp only [addr_of_open, derefCountOf, nextAdjustOf, requiredRefsOf] at hge ⊢
    rw [if_pos hge]
  · intro hlt c rp m sd
    rw [hstep]
    simp only [addr_of_open, derefCountOf, nextAdjustOf, requiredRefsOf] at hlt ⊢
    rw [if_neg (by omega)]
    split
    · simp
    · simp
  · intro hab
    simp [requiredRefsOf, required_refs_prec_msg, hab]
  · intro hab
    refine ⟨?_, ?_, ?_, ?_⟩
    · intro a ha hk hrb
      obtain ⟨ak, atr⟩ := a
      simp at hk
      subst hk
      simp [requiredRefsOf, required_refs_prec_msg, hab, ha, hrb]
    · intro a ha hk hrb
      obtain ⟨ak, atr⟩ := a
      simp at hk
      subst hk
      simp [requiredRefsOf, required_refs_prec_msg, hab, ha, hrb]
    · intro a ha hk
      obtain ⟨ak, atr⟩ := a
      cases ak with
      | derefAdj => simp [requiredRefsOf, required_refs_prec_msg, hab, ha]
      | otherAdj => simp [requiredRefsOf, required_refs_prec_msg, hab, ha]
      | borrowAdj b =>
        cases b with
        | rawPtrBorrow => simp [requiredRefsOf, required_refs_prec_msg, hab, ha]
        | refBorrow mb =>
          cases mb with
          | mutBorrow => simp at hk
          | notBorrow => simp [requiredRefsOf, required_refs_prec_msg, hab, ha]
    · intro ha
      simp [requiredRefsOf, required_refs_prec_msg, hab, ha]

/-- C1 witness: a borrow in a field-access position (auto-borrow, one
required reference) with two counted implicit dereferences opens a
`DerefedBorrow` with remaining count 1. -/
theorem c1_witness :
    c1Field.span.fromExpansion = false ∧
    derefCountOf c1Field ≥ requiredRefsOf c1Field ∧
    (∃ rp m, (check_expr_step none c1Field).1 =
      some (.derefedBorrow (derefCountOf c1Field - requiredRefsOf c1Field) rp m,
            { span := c1Field.span, hirId := c1Field.hirId })) :=
  ⟨rfl, by decide, (c1_required_refs_and_open c1Field rfl rfl).1 (by decide)⟩

/-- C10: the `DerefedBorrow` decrement fires only under the guard
`count != 0` (so `count - 1` never wraps and adding the 1 back recovers
`count`), and the state only opens with `deref_count - required_refs`
when `deref_count >= required_refs` holds (so the stored remaining count
plus the required count is exactly the counted dereference steps). -/
theorem c10_no_underflow :
    (∀ (count : Nat) (rp : Int) (m : String) (data : StateData) (e : ExprAttrs),
      e.span.fromExpansion = false → e.kind = .addrOfRef → count ≠ 0 →
      check_expr_step (some (.derefedBorrow count rp m, data)) e
          = (some (.derefedBorrow (count - 1) rp m, data), []) ∧
        count - 1 + 1 = count) ∧
    (∀ (e : ExprAttrs) (c : Nat) (rp : Int) (m : String) (sd : StateData),
      (check_expr_step none e).1 = some (.derefedBorrow c rp m, sd) →
      derefCountOf e ≥ requiredRefsOf e ∧ c + requiredRefsOf e = derefCountOf e) := by
  constructor
  · intro count rp m data e h1 h2 hc
    constructor
    · simp [check_expr_step, h1, h2, try_parse_ref_op, hc]
    · omega
  · intro e c rp m sd h
    by_cases hexp : e.span.fromExpansion
    · simp [check_expr_step, hexp] at h
    · simp only [check_expr_step, hexp, Bool.false_eq_true, if_false] at h
      cases hk : try_parse_ref_op e.kind with
      | none => rw [hk] at h; simp at h
      | some op =>
        rw [hk] at h
        cases op with
        | method tm =>
          simp at h
          split at h <;> simp at h
        | deref => simp at h
        | addrOf =>
          simp only [addr_of_open] at h
          split at h
          · next hge =>
            simp only [Option.some.injEq, Prod.mk.injEq, State.derefedBorrow.injEq] at h
            simp only [derefCountOf, requiredRefsOf, nextAdjustOf]
            omega
          · split at h <;> simp at h

/-- C10 witness: the decrement at remaining count 2, and the opening
equation at a borrow with three counted dereferences in a field-access
position (required count 1, remaining count 2). -/
theorem c10_witness :
    (check_expr_step (some (.derefedBorrow 2 0 deref_msg, c2Data)) c10Open
        = (some (.derefedBorrow 1 0 deref_msg, c2Data), []) ∧ 2 - 1 + 1 = 2) ∧
    (derefCountOf c10Open ≥ requiredRefsOf c10Open ∧
      2 + requiredRefsOf c10Open = derefCountOf c10Open) :=
  ⟨c10_no_underflow.1 2 0 deref_msg c2Data c10Open rfl rfl (by decide),
   c10_no_underflow.2 c10Open 2 60 deref_msg
     { span := c10Open.span, hirId := c10Open.hirId } (by decide)⟩

/-- C5 counterexample: `&str` is a parameter type the stability check
accepts unconditionally although `str` is not among the shapes the claim
lists, and the claim's listed `reference` shape is rejected whenever it
actually occurs under one peeled layer (`&&bool` has depth 2). -/
theorem c5_str_counterexample :
    (is_param_auto_deref_stable (.ref .not .str) = true ∧
      spec_listed_param_shape .str = false) ∧
    (spec_listed_param_shape (.ref .not .bool) = true ∧
      is_param_auto_deref_stable (.ref .not (.ref .not .bool)) = false) := by
  decide

/-- C5 (amended): both stability checks fail whenever the declared
type's reference depth is not exactly 1; for a function argument
position the peeled parameter shape is unconditionally stable exactly
when it is a primitive scalar, `str`, a foreign type, array, slice, raw
pointer, function item/pointer, closure, generator, generator witness,
never, tuple or associated-type projection (the source's reference arm
is unreachable after peeling), while inferred, generic, opaque, dynamic
and placeholder parameter types are always unstable. -/
theorem c5_stability_depth_and_shapes :
    (∀ ty : MirTy, (peel_mid_ty_refs ty).2 ≠ 1 → is_param_auto_deref_stable ty = false) ∧
    (∀ hty : HirTy, (peel_hir_ty_refs hty).2 ≠ 1 →
      is_binding_ty_auto_deref_stable hty = false) ∧
    (∀ m : Mutability,
      is_param_auto_deref_stable (.ref m .bool) = true ∧
      is_param_auto_deref_stable (.ref m .char) = true ∧
      is_param_auto_deref_stable (.ref m .int) = true ∧
      is_param_auto_deref_stable (.ref m .uint) = true ∧
      is_param_auto_deref_stable (.ref m .float) = true ∧
      is_param_auto_deref_stable (.ref m .foreign) = true ∧
      is_param_auto_deref_stable (.ref m .str) = true ∧
      is_param_auto_deref_stable (.ref m .array) = true ∧
      is_param_auto_deref_stable (.ref m .slice) = true ∧
      is_param_auto_deref_stable (.ref m .rawPtr) = true ∧
      is_param_auto_deref_stable (.ref m .fnDef) = true ∧
      is_param_auto_deref_stable (.ref m .fnPtr) = true ∧
      is_param_auto_deref_stable (.ref m .closure) = true ∧
      is_param_auto_deref_stable (.ref m .generator) = true ∧
      is_param_auto_deref_stable (.ref m .generatorWitness) = true ∧
      is_param_auto_deref_stable (.ref m .never) = true ∧
      is_param_auto_deref_stable (.ref m .tuple) = true ∧
      is_param_auto_deref_stable (.ref m .projection) = true) ∧
    (∀ m : Mutability,
      is_param_auto_deref_stable (.ref m .infer) = false ∧
      is_param_auto_deref_stable (.ref m .param) = false ∧
      is_param_auto_deref_stable (.ref m .opaqueTy) = false ∧
      is_param_auto_deref_stable (.ref m .dynamic) = false ∧
      is_param_auto_deref_stable (.ref m .placeholder) = false) := by
  refine ⟨?_, ?_, ?_, ?_⟩
  · intro ty h
    simp [is_param_auto_deref_stable, h]
  · intro hty h
    rw [is_binding_ty_auto_deref_stable]
    simp [h]
  · intro m
    cases m <;> decide
  · intro m
    cases m <;> decide

/-- C5 witness: the depth conditions discharged at `&&i32` (middle type)
and at a depth-0 HIR path type. -/
theorem c5_witness :
    ((peel_mid_ty_refs (.ref .not (.ref .not .int))).2 ≠ 1 ∧
      is_param_auto_deref_stable (.ref .not (.ref .not .int)) = false) ∧
    ((peel_hir_ty_refs (.pathSeg [])).2 ≠ 1 ∧
      is_binding_ty_auto_deref_stable (.pathSeg []) = false) :=
  ⟨⟨by decide, c5_stability_depth_and_shapes.1 (.ref .not (.ref .not .int)) (by decide)⟩,
   ⟨by decide, c5_stability_depth_and_shapes.2.1 (.pathSeg []) (by decide)⟩⟩

/-- C6: for a read usage of a tracked ref-pattern binding: an adjustment
list beginning with two implicit dereferences leaves the binding
unchanged with no edit; otherwise a field-access parent records no edit,
a non-macro explicit-dereference parent records an edit erasing that
dereference, any other non-macro parent at postfix precedence
permanently disqualifies the binding, and any remaining non-macro parent
records an address-of-prefixing edit and clears `always_deref`. -/
theorem c6_local_usage (pat : RefPatM) (u : UsageInfo) :
    (adjusts_start_two_derefs u.adjustments = true →
      check_local_usage_model pat u = some pat) ∧
    (adjusts_start_two_derefs u.adjustments = false →
      (u.parent = .fieldParent → check_local_usage_model pat u = some pat) ∧
      (∀ pspan, u.parent = .unaryDerefParentU pspan → pspan.fromExpansion = false →
        check_local_usage_model pat u =
          some { pat with replacements := pat.replacements ++ [(pspan, u.snip)] }) ∧
      (∀ pspan prec, u.parent = .otherParentU pspan prec → pspan.fromExpansion = false →
        prec = PREC_POSTFIX → check_local_usage_model pat u = none) ∧
      (∀ pspan prec, u.parent = .otherParentU pspan prec → pspan.fromExpansion = false →
        prec ≠ PREC_POSTFIX →
        check_local_usage_model pat u =
          some { pat with alwaysDeref := false,
                          replacements := pat.replacements ++ [(u.span, "&" ++ u.snip)] })) := by
  constructor
  · intro h
    simp [check_local_usage_model, h]
  · intro h
    refine ⟨?_, ?_, ?_, ?_⟩
    · intro hp
      simp [check_local_usage_model, h, hp]
    · intro pspan hp hexp
      simp [check_local_usage_model, h, hp, hexp]
    · intro pspan prec hp hexp hprec
      simp [check_local_usage_model, h, hp, hexp, hprec]
    · intro pspan prec hp hexp hprec
      simp [check_local_usage_model, h, hp, hexp, hprec]

/-- C6 witness: a usage whose adjustments already begin with two
implicit dereferences records no edit and leaves the binding unchanged. -/
theorem c6_witness :
    adjusts_start_two_derefs wUsageTwoDerefs.adjustments = true ∧
    check_local_usage_model wPat wUsageTwoDerefs = some wPat :=
  ⟨by decide, (c6_local_usage wPat wUsageTwoDerefs).1 (by decide)⟩

/-- C7: on the first occurrence of a by-reference binding pattern, a
`RefPat` with `always_deref = true` is created exactly when the pattern
is not macro-generated and its bound type is a reference to an immutable
reference; a mutable inner reference never creates a tracked entry, and
a macro-generated first occurrence never creates one. -/
theorem c7_ref_pat_creation (locals : RefLocals) (p : PatAttrs) (id : Nat) :
    (∀ m t, p.kind = .binding .refAnn id → lookupLocal locals id = none →
      p.span.fromExpansion = false → p.ty = .ref m (.ref .not t) →
      check_pat_model locals p =
        locals ++ [(id, some { alwaysDeref := true, spans := [p.span],
                               replacements := [(p.span, p.nameSnip)],
                               hirId := p.hirId })]) ∧
    (∀ m t, p.kind = .binding .refAnn id → lookupLocal locals id = none →
      p.ty = .ref m (.ref .mut' t) → check_pat_model locals p = locals) ∧
    (p.kind = .binding .refAnn id → lookupLocal locals id = none →
      p.span.fromExpansion = true → check_pat_model locals p = locals) := by
  refine ⟨?_, ?_, ?_⟩
  · intro m t hk hl hexp hty
    simp [check_pat_model, hk, hl, hexp, hty]
  · intro m t hk hl hty
    by_cases hexp : p.span.fromExpansion
    · simp [check_pat_model, hk, hl, hexp]
    · simp at hexp
      simp [check_pat_model, hk, hl, hexp, hty]
  · intro hk hl hexp
    simp [check_pat_model, hk, hl, hexp]

/-- C7 witness: a qualifying first occurrence creates the tracked entry
with `always_deref = true`; the same pattern with a mutable inner
reference creates nothing. -/
theorem c7_witness :
    wRefPatOcc.span.fromExpansion = false ∧
    check_pat_model [] wRefPatOcc =
      [(40, some { alwaysDeref := true, spans := [wRefPatOcc.span],
                   replacements := [(wRefPatOcc.span, "x")], hirId := 42 })] ∧
    check_pat_model [] { wRefPatOcc with ty := .ref .not (.ref .mut' .int) } = [] :=
  ⟨rfl, (c7_ref_pat_creation [] wRefPatOcc 40).1 .not .int rfl rfl rfl rfl,
   (c7_ref_pat_creation [] { wRefPatOcc with ty := .ref .not (.ref .mut' .int) } 40).2.1
     .not .int rfl rfl rfl⟩

/-- Replacing a key's value by the tombstone is observable through
lookup. -/
theorem lookup_setLocal (locals : RefLocals) (id : Nat) (v : Option RefPatM) :
    lookupLocal (setLocal locals id v) id = some v := by
  induction locals with
  | nil => simp [setLocal, lookupLocal]
  | cons kv rest ih =>
    obtain ⟨k, w⟩ := kv
    by_cases hk : k = id
    · simp [setLocal, lookupLocal, hk]
    · simp [setLocal, lookupLocal, hk, ih]

/-- A tombstoned entry contributes nothing at flush: flushing with the
entry's value set to `none` equals flushing with the entry removed. -/
theorem flush_set_none (locals : RefLocals) (id : Nat) :
    check_body_post_model (setLocal locals id none)
      = check_body_post_model (removeLocal locals id) := by
  induction locals with
  | nil => rfl
  | cons kv rest ih =>
    obtain ⟨k, v⟩ := kv
    simp only [setLocal, removeLocal]
    by_cases hk : k = id
    · simp [hk, check_body_post_model]
    · simp only [if_neg hk]
      cases v with
      | none => simpa [check_body_post_model] using ih
      | some pat => simpa [check_body_post_model] using ih

/-- C8: a later occurrence of a tracked binding inside a macro expansion
permanently tombstones the binding: the map entry becomes `none`, and
the body flush emits exactly what it would emit with the binding's entry
removed — no finding for it, whatever evidence the other occurrences had
accumulated. -/
theorem c8_macro_occurrence_tombstone (locals : RefLocals) (p : PatAttrs)
    (id : Nat) (prev : RefPatM) :
    p.kind = .binding .refAnn id → lookupLocal locals id = some (some prev) →
    p.span.fromExpansion = true →
    check_pat_model locals p = setLocal locals id none ∧
    lookupLocal (check_pat_model locals p) id = some none ∧
    check_body_post_model (check_pat_model locals p)
      = check_body_post_model (removeLocal locals id) := by
  intro h1 h2 h3
  have he : check_pat_model locals p = setLocal locals id none := by
    simp [check_pat_model, h1, h2, h3]
  refine ⟨he, ?_, ?_⟩
  · rw [he]
    exact lookup_setLocal locals id none
  · rw [he]
    exact flush_set_none locals id

/-- C8 witness: a binding introduced by a qualifying first arm and hit
by a macro-generated second arm is tombstoned, and the flush of the
resulting map emits nothing for it. -/
theorem c8_witness :
    wRefPatMacroOcc.span.fromExpansion = true ∧
    check_pat_model (check_pat_model [] wRefPatOcc) wRefPatMacroOcc
        = setLocal (check_pat_model [] wRefPatOcc) 40 none ∧
    lookupLocal (check_pat_model (check_pat_model [] wRefPatOcc) wRefPatMacroOcc) 40
        = some none ∧
    check_body_post_model (check_pat_model (check_pat_model [] wRefPatOcc) wRefPatMacroOcc)
        = check_body_post_model (removeLocal (check_pat_model [] wRefPatOcc) 40) :=
  ⟨rfl, c8_macro_occurrence_tombstone (check_pat_model [] wRefPatOcc) wRefPatMacroOcc 40
     { alwaysDeref := true, spans := [wRefPatOcc.span],
       replacements := [(wRefPatOcc.span, "x")], hirId := 42 } rfl (by decide) rfl⟩
